import Mathlib

/-!
Shallow embedding of the middleware resolution-and-binding pipeline
(`src/packages/core/middleware/middleware-module.ts`).

The concurrent `Promise.all` fan-outs of the source are sequentialized in
declared order with fail-fast error propagation (`Except`): the first branch
to fail rejects the whole phase, which is the observable behaviour the
source's fail-fast combinators guarantee.  JavaScript values that flow
through the module (handlers, native promises, non-promise thenables,
arbitrary foreign values) are modelled by the inductive `JSValue`, with the
`instanceof Promise` test and `await` given their JavaScript meaning.

Collaborators of the middleware module whose sources are not part of the
provided tree (`MiddlewareBuilder`, `MiddlewareContainer`,
`MiddlewareResolver`, `RouterProxy`) are modelled from the specification;
each such definition carries a doc comment saying so.
-/

set_option autoImplicit false

deriving instance DecidableEq for Except

namespace Nest

/-- Errors that can travel through the pipeline: the two exception classes
thrown by `middleware-module.ts` itself, plus arbitrary user errors thrown
from hooks, factories or the DI container. -/
inductive Err where
  | invalidMiddlewareException (name : String)
  | runtimeException
  | userException (code : Nat)
deriving DecidableEq, Repr

/-- A JavaScript value as observed by the middleware module: a handler
function (identified by a numeric id), a native promise together with its
eventual settlement, a non-promise thenable together with its eventual
settlement, or any other foreign value. -/
inductive JSValue where
  | handler (h : Nat)
  | promiseOk (v : JSValue)
  | promiseErr (e : Err)
  | thenableOk (v : JSValue)
  | thenableErr (e : Err)
  | foreign (n : Nat)
deriving DecidableEq, Repr

/-- The `resolve instanceof Promise` test of `bindHandler`: true exactly for
native promises; a non-promise thenable is not an instance of `Promise`. -/
def instanceofPromise : JSValue → Bool
  | .promiseOk _ => true
  | .promiseErr _ => true
  | _ => false

/-- JavaScript `await`: unwraps promises and thenables (recursively, as the
await protocol does), turning a rejection into a thrown error; any other
value passes through unchanged. -/
def awaitJS : JSValue → Except Err JSValue
  | .promiseOk v => awaitJS v
  | .promiseErr e => .error e
  | .thenableOk v => awaitJS v
  | .thenableErr e => .error e
  | .handler h => .ok (.handler h)
  | .foreign n => .ok (.foreign n)

/-- A middleware class (`Type<NestMiddleware>`); only its `name` is consulted
by the middleware module. -/
structure Metatype where
  name : String
deriving DecidableEq, Repr

/-- The `RequestMethod` enum of `@nestjs/common`. -/
inductive RequestMethod where
  | get
  | post
  | put
  | delete
  | patch
  | all
  | options
  | head
deriving DecidableEq, Repr

/-- A resolved middleware instance.  `resolve` is optionally present
(duck-typed capability check `isUndefined(instance.resolve)`); when present,
its value is the outcome of invoking `instance.resolve()`: a synchronous
throw (`Except.error`) or the returned JavaScript value. -/
structure NestMiddleware where
  resolve : Option (Except Err JSValue)
deriving DecidableEq, Repr

/-- A value that is either a scalar or an array, as `config.middleware` may
be declared either way. -/
inductive OneOrMany (α : Type) where
  | one (a : α)
  | many (l : List α)
deriving DecidableEq, Repr

/-- `[].concat(x)`: a scalar becomes a one-element array, an array is spread
unchanged. -/
def concatNormalize {α : Type} : OneOrMany α → List α
  | .one a => [a]
  | .many l => l

/-- A `MiddlewareConfiguration`: middleware type references (possibly
declared as a single scalar) and the routes they apply to. -/
structure MiddlewareConfiguration where
  middleware : OneOrMany Metatype
  forRoutes : List String
deriving DecidableEq, Repr

/-- A `MiddlewareWrapper`: the resolved instance and its metatype. -/
structure MiddlewareWrapper where
  inst : NestMiddleware
  metatype : Metatype
deriving DecidableEq, Repr

/-- First-match lookup in an association list keyed by strings
(`Map.prototype.get`). -/
def assocGet {α : Type} : List (String × α) → String → Option α
  | [], _ => none
  | (k, v) :: rest, key => if k = key then some v else assocGet rest key

/-- Append values to the list stored under a key, creating the entry at the
end when the key is absent. -/
def assocAppend {α : Type} : List (String × List α) → String → List α → List (String × List α)
  | [], key, vals => [(key, vals)]
  | (k, vs) :: rest, key, vals =>
    if k = key then (k, vs ++ vals) :: rest else (k, vs) :: assocAppend rest key vals

/-- Replace the value stored under a key, creating the entry at the end when
the key is absent (`Map.prototype.set`). -/
def assocSet {α : Type} : List (String × α) → String → α → List (String × α)
  | [], key, v => [(key, v)]
  | (k, w) :: rest, key, v =>
    if k = key then (k, v) :: rest else (k, w) :: assocSet rest key v

/-- Modelled from the spec: `MiddlewareBuilder` (`builder.ts` is not among
the provided sources).  Per the builder contract, `configure(builder)` may
call `apply(...).forRoutes(...)` any number of times, each call accumulating
one configuration, and `build()` yields the ordered accumulated list. -/
structure MiddlewareBuilder where
  configs : List MiddlewareConfiguration
deriving DecidableEq, Repr

/-- `new MiddlewareBuilder(this.routesMapper)`: a freshly constructed builder
has accumulated no configurations. -/
def MiddlewareBuilder.new : MiddlewareBuilder := ⟨[]⟩

/-- Modelled from the spec: `build()` yields the ordered configuration list
the builder accumulated. -/
def MiddlewareBuilder.build (b : MiddlewareBuilder) : List MiddlewareConfiguration :=
  b.configs

/-- A JavaScript object reference as inspected by
`instanceof MiddlewareBuilder`: either an actual `MiddlewareBuilder`
instance (whose class cannot change after construction, however its state is
mutated) or a foreign object. -/
inductive BuilderRef where
  | middlewareBuilder (b : MiddlewareBuilder)
  | foreignObject (n : Nat)
deriving DecidableEq, Repr

/-- The `instanceof MiddlewareBuilder` test on an object reference. -/
def instanceofMiddlewareBuilder : BuilderRef → Bool
  | .middlewareBuilder _ => true
  | .foreignObject _ => false

/-- Modelled from the spec: `MiddlewareContainer` (`container.ts` is not
among the provided sources): module name → ordered configuration list, and
module name → (type name → wrapper). -/
structure MiddlewareContainer where
  configs : List (String × List MiddlewareConfiguration)
  middleware : List (String × List (String × MiddlewareWrapper))
deriving DecidableEq, Repr

/-- A container with no configurations and no wrappers. -/
def MiddlewareContainer.empty : MiddlewareContainer := ⟨[], []⟩

/-- Modelled from the spec: `addConfig(config, module)` appends the built
configuration list under the module's name, never deduplicating. -/
def MiddlewareContainer.addConfig (c : MiddlewareContainer)
    (config : List MiddlewareConfiguration) (module : String) : MiddlewareContainer :=
  { c with configs := assocAppend c.configs module config }

/-- Modelled from the spec: `getConfigs()` — read-only view of the
per-module configuration lists. -/
def MiddlewareContainer.getConfigs (c : MiddlewareContainer) :
    List (String × List MiddlewareConfiguration) :=
  c.configs

/-- Modelled from the spec: `getMiddleware(module)` — the type-name →
wrapper map of the module (empty for a module with no wrappers). -/
def MiddlewareContainer.getMiddleware (c : MiddlewareContainer) (module : String) :
    List (String × MiddlewareWrapper) :=
  (assocGet c.middleware module).getD []

/-- Modelled from the spec: `insertWrapper` — stores a wrapper under
(module name, type name); used only by the resolver. -/
def MiddlewareContainer.insertWrapper (c : MiddlewareContainer) (typeName : String)
    (w : MiddlewareWrapper) (module : String) : MiddlewareContainer :=
  { c with middleware :=
      assocSet c.middleware module (assocSet (c.getMiddleware module) typeName w) }

/-- A module instance optionally exposing a `configure(builder)` hook.  The
hook receives the builder by reference: it may mutate the builder's
accumulated state but cannot change which object the caller's local variable
refers to, nor that object's class.  Invoking it either throws synchronously
(`Except.error`) or returns the mutated builder state together with the
hook's JavaScript return value — which the caller is free to ignore. -/
structure NestModule where
  configure : Option (MiddlewareBuilder → Except Err (MiddlewareBuilder × JSValue))

/-- The injector's `Module` as consumed here: its `instance`, and (for the
resolver, modelled from the spec) the middleware types the module declares. -/
structure InjectorModule where
  inst : NestModule
  middlewareTypes : List Metatype

/-- `MiddlewareModule.loadConfiguration`: a no-op when the instance has no
`configure` hook; otherwise construct a builder, invoke
`instance.configure(middlewareBuilder)`, test
`middlewareBuilder instanceof MiddlewareBuilder` — the test inspects the
locally constructed builder variable, not the hook's return value — and,
since an object's class cannot change, extract the built list and append it
under the module's name. -/
def loadConfiguration (middlewareContainer : MiddlewareContainer) (inst : NestModule)
    (module : String) : Except Err MiddlewareContainer :=
  match inst.configure with
  | none => .ok middlewareContainer
  | some configure =>
    match configure MiddlewareBuilder.new with
    | .error e => .error e
    | .ok (middlewareBuilder, _returnValue) =>
      if instanceofMiddlewareBuilder (.middlewareBuilder middlewareBuilder) = false then
        .ok middlewareContainer
      else
        .ok (middlewareContainer.addConfig middlewareBuilder.build module)

/-- Modelled from the spec: the per-type body of
`MiddlewareResolver.resolveInstances` (`resolver.ts` is not among the
provided sources): for each middleware type the module declares, ask the DI
container for an instance and insert the wrapper under the module's name;
any DI failure propagates. -/
def resolveInstancesList (di : Metatype → Except Err NestMiddleware) (module : String) :
    List Metatype → MiddlewareContainer → Except Err MiddlewareContainer
  | [], c => .ok c
  | t :: rest, c =>
    match di t with
    | .error e => .error e
    | .ok inst => resolveInstancesList di module rest (c.insertWrapper t.name ⟨inst, t⟩ module)

/-- Modelled from the spec: `MiddlewareResolver.resolveInstances`. -/
def resolveInstances (di : Metatype → Except Err NestMiddleware) (m : InjectorModule)
    (module : String) (c : MiddlewareContainer) : Except Err MiddlewareContainer :=
  resolveInstancesList di module m.middlewareTypes c

/-- `MiddlewareModule.resolveMiddleware`: for every `(name, module)` entry of
the module map, load its configuration, then resolve its middleware
instances; the `Promise.all` fan-out is sequentialized in entry order with
the first error rejecting the whole phase. -/
def resolveMiddleware (di : Metatype → Except Err NestMiddleware) :
    List (String × InjectorModule) → MiddlewareContainer → Except Err MiddlewareContainer
  | [], c => .ok c
  | (name, m) :: rest, c =>
    match loadConfiguration c m.inst name with
    | .error e => .error e
    | .ok c1 =>
      match resolveInstances di m name c1 with
      | .error e => .error e
      | .ok c2 => resolveMiddleware di rest c2

/-- `MiddlewareModule.register`: constructs the run-scoped collaborators
(exception filters, routes mapper, resolver — pure constructions here) and
invokes `resolveMiddleware` over the container's modules.  It does not
invoke the bind phase (`registerMiddleware`). -/
def register (di : Metatype → Except Err NestMiddleware)
    (modules : List (String × InjectorModule)) (c : MiddlewareContainer) :
    Except Err MiddlewareContainer :=
  resolveMiddleware di modules c

/-- One router registration performed by `bindHandlerWithProxy`: the request
method whose registration function `RouterMethodFactory` selected, the route
path, and the middleware value wrapped by the router proxy. -/
structure Registration where
  method : RequestMethod
  path : String
  middleware : JSValue
deriving DecidableEq, Repr

/-- `MiddlewareModule.bindHandlerWithProxy`: wrap the middleware with the
router proxy and register `(path, proxy)` through the method-bound router
registration function. -/
def bindHandlerWithProxy (method : RequestMethod) (path : String)
    (middleware : JSValue) : Registration :=
  ⟨method, path, middleware⟩

/-- `MiddlewareModule.bindHandler`: fail with
`InvalidMiddlewareException(metatype.name)` when `instance.resolve` is
undefined; build the exceptions handler and the method-bound router function
(pure constructions here); invoke `instance.resolve()`; when the result is
not an `instanceof Promise`, bind it directly, otherwise await it and bind
the settled value.  The returned list records the router registrations
performed. -/
def bindHandler (inst : NestMiddleware) (metatype : Metatype)
    (method : RequestMethod) (path : String) : Except Err (List Registration) :=
  match inst.resolve with
  | none => .error (.invalidMiddlewareException metatype.name)
  | some resolveResult =>
    match resolveResult with
    | .error e => .error e
    | .ok resolve =>
      if instanceofPromise resolve = false then
        .ok [bindHandlerWithProxy method path resolve]
      else
        match awaitJS resolve with
        | .error e => .error e
        | .ok middleware => .ok [bindHandlerWithProxy method path middleware]

/-- The per-metatype body of `registerRouteMiddleware`, sequentialized in
declared order (the source fans out with `Promise.all`, fail-fast): look the
wrapper up by type name — absence throws `RuntimeException` — then bind its
instance. -/
def bindAllMiddleware (collection : List (String × MiddlewareWrapper)) (routePath : String) :
    List Metatype → Except Err (List Registration)
  | [] => .ok []
  | metatype :: rest =>
    match assocGet collection metatype.name with
    | none => .error .runtimeException
    | some middleware =>
      match bindHandler middleware.inst metatype RequestMethod.all routePath with
      | .error e => .error e
      | .ok regs =>
        match bindAllMiddleware collection routePath rest with
        | .error e => .error e
        | .ok more => .ok (regs ++ more)

/-- `MiddlewareModule.registerRouteMiddleware`: normalize `config.middleware`
with `[].concat`, and for every metatype look the wrapper up in the module's
collection and bind its instance for `RequestMethod.ALL` at the route
path. -/
def registerRouteMiddleware (middlewareContainer : MiddlewareContainer) (routePath : String)
    (config : MiddlewareConfiguration) (module : String) : Except Err (List Registration) :=
  bindAllMiddleware (middlewareContainer.getMiddleware module) routePath
    (concatNormalize config.middleware)

/-- The per-route body of `registerMiddlewareConfig`, sequentialized in
declared order. -/
def registerConfigRoutes (middlewareContainer : MiddlewareContainer)
    (config : MiddlewareConfiguration) (module : String) :
    List String → Except Err (List Registration)
  | [] => .ok []
  | routePath :: rest =>
    match registerRouteMiddleware middlewareContainer routePath config module with
    | .error e => .error e
    | .ok regs =>
      match registerConfigRoutes middlewareContainer config module rest with
      | .error e => .error e
      | .ok more => .ok (regs ++ more)

/-- `MiddlewareModule.registerMiddlewareConfig`: register every route of
`config.forRoutes`. -/
def registerMiddlewareConfig (middlewareContainer : MiddlewareContainer)
    (config : MiddlewareConfiguration) (module : String) : Except Err (List Registration) :=
  registerConfigRoutes middlewareContainer config module config.forRoutes

/-- The per-configuration body of `registerMiddleware` for one module. -/
def registerModuleConfigs (middlewareContainer : MiddlewareContainer) (module : String) :
    List MiddlewareConfiguration → Except Err (List Registration)
  | [] => .ok []
  | config :: rest =>
    match registerMiddlewareConfig middlewareContainer config module with
    | .error e => .error e
    | .ok regs =>
      match registerModuleConfigs middlewareContainer module rest with
      | .error e => .error e
      | .ok more => .ok (regs ++ more)

/-- The per-module body of `registerMiddleware`. -/
def registerAllEntries (middlewareContainer : MiddlewareContainer) :
    List (String × List MiddlewareConfiguration) → Except Err (List Registration)
  | [] => .ok []
  | (module, moduleConfigs) :: rest =>
    match registerModuleConfigs middlewareContainer module moduleConfigs with
    | .error e => .error e
    | .ok regs =>
      match registerAllEntries middlewareContainer rest with
      | .error e => .error e
      | .ok more => .ok (regs ++ more)

/-- `MiddlewareModule.registerMiddleware`: the bind phase — walk every
`(module, configs)` entry of `getConfigs()`. -/
def registerMiddleware (middlewareContainer : MiddlewareContainer) :
    Except Err (List Registration) :=
  registerAllEntries middlewareContainer middlewareContainer.getConfigs

/-- Modelled from the spec: the outcome of invoking a middleware handler on
a request — it returns normally (`returned`, carrying the settlement of any
returned awaitable) or throws synchronously (`threw`).
(`router-proxy.ts` is not among the provided sources.) -/
inductive InvocationOutcome where
  | returned (outcome : Except Err Unit)
  | threw (e : Err)
deriving DecidableEq, Repr

/-- What one proxy invocation did: the errors handed to
`exceptionsHandler.handle` in call order, and any error that escaped the
proxy boundary. -/
structure ProxyTrace where
  handledErrors : List Err
  escaped : Option Err
deriving DecidableEq, Repr

/-- Modelled from the spec:
`RouterProxy.createProxy(targetHandler, exceptionsHandler)` yields a
function of the router's call signature that invokes `targetHandler`; if it
throws synchronously or its returned awaitable rejects, the error is passed
to `exceptionsHandler.handle(error, req, res, next)` instead of escaping. -/
def createProxy (targetHandler : Nat → InvocationOutcome) (req : Nat) : ProxyTrace :=
  match targetHandler req with
  | .returned (.ok _) => ⟨[], none⟩
  | .returned (.error e) => ⟨[e], none⟩
  | .threw e => ⟨[e], none⟩

/-- The `Logger` middleware class of the spec's scenarios. -/
def loggerType : Metatype := ⟨"Logger"⟩

/-- A configuration applying `Logger` (declared as a scalar) to `/users`. -/
def cfgLogger : MiddlewareConfiguration := ⟨.one loggerType, ["/users"]⟩

/-- A configure hook that accumulates `cfgLogger` on the builder it was
handed and then returns a foreign value instead of the builder. -/
def foreignConfigure : MiddlewareBuilder → Except Err (MiddlewareBuilder × JSValue) :=
  fun b => .ok ({ b with configs := b.configs ++ [cfgLogger] }, .foreign 7)

/-- A configure hook that returns (without awaiting anyone ever observing
it) a promise rejecting with `userException 1`. -/
def rejectedConfigure : MiddlewareBuilder → Except Err (MiddlewareBuilder × JSValue) :=
  fun b => .ok (b, .promiseErr (.userException 1))

/-- A configure hook that throws synchronously with `userException 2`. -/
def throwingConfigure : MiddlewareBuilder → Except Err (MiddlewareBuilder × JSValue) :=
  fun _ => .error (.userException 2)

/-- A DI container resolving every type to an instance whose `resolve()`
returns handler `0`. -/
def di0 : Metatype → Except Err NestMiddleware :=
  fun _ => .ok ⟨some (.ok (.handler 0))⟩

/-- The resolved `Logger` wrapper whose `resolve()` returns handler `7`. -/
def loggerWrapper : MiddlewareWrapper := ⟨⟨some (.ok (.handler 7))⟩, loggerType⟩

/-- A container holding the resolved `Logger` wrapper for module `M`. -/
def containerWithLogger : MiddlewareContainer :=
  ⟨[], [("M", [("Logger", loggerWrapper)])]⟩

/-- Claim C1, counterexample: the configure hook `foreignConfigure`
accumulates one configuration on the builder and then returns the foreign
value `.foreign 7`.  The claim requires that no configs be extracted or
appended in this case; the code nevertheless appends the built list, because
the `instanceof MiddlewareBuilder` test inspects the locally constructed
builder (always of the expected kind), not the hook's return value. -/
theorem loadConfiguration_foreign_return_still_appends :
    loadConfiguration MiddlewareContainer.empty ⟨some foreignConfigure⟩ "M" =
      .ok ⟨[("M", [cfgLogger])], []⟩ := rfl

/-- Claim C1 (amended): whenever the instance has a configure hook that
returns normally, `loadConfiguration` appends the built configuration list
of the locally constructed builder regardless of the hook's return value:
the `instanceof MiddlewareBuilder` test inspects that local builder, which
is always of the expected kind, so the foreign-return rejection branch is
unreachable. -/
theorem loadConfiguration_appends_regardless_of_return
    (c : MiddlewareContainer) (module : String)
    (configure : MiddlewareBuilder → Except Err (MiddlewareBuilder × JSValue))
    (b : MiddlewareBuilder) (ret : JSValue)
    (h : configure MiddlewareBuilder.new = .ok (b, ret)) :
    loadConfiguration c ⟨some configure⟩ module = .ok (c.addConfig b.build module) := by
  simp [loadConfiguration, h, instanceofMiddlewareBuilder]

/-- Claim C1 witness: applying the amended statement to `foreignConfigure`,
whose return value is foreign, under module name `N`. -/
theorem loadConfiguration_appends_regardless_of_return_witness :
    loadConfiguration MiddlewareContainer.empty ⟨some foreignConfigure⟩ "N" =
      .ok (MiddlewareContainer.empty.addConfig [cfgLogger] "N") :=
  loadConfiguration_appends_regardless_of_return MiddlewareContainer.empty "N"
    foreignConfigure ⟨[cfgLogger]⟩ (.foreign 7) rfl

/-- Claim C2, counterexample: a module whose configure hook returns a
promise rejecting with `userException 1`.  The claim requires `register()`
to reject with any error thrown asynchronously from a configure hook;
the code never awaits the hook's return value, so `register` resolves
successfully. -/
theorem register_async_configure_error_not_propagated :
    register di0 [("M", ⟨⟨some rejectedConfigure⟩, []⟩)] MiddlewareContainer.empty =
      .ok ⟨[("M", [])], []⟩ := rfl

/-- Claim C2 (amended): `register()` rejects with the first error met while
loading configurations or resolving instances; a configure hook error thrown
synchronously propagates unchanged (first conjunct), while the hook's
returned value — even a rejected promise — never affects the outcome
(second conjunct, for an arbitrary returned `ret`); the invalid-middleware
and unresolved-middleware errors belong to the separate bind phase
(`registerMiddleware`), which `register` does not invoke. -/
theorem register_fatal_error_propagation
    (di : Metatype → Except Err NestMiddleware) (name : String) (m : InjectorModule)
    (rest : List (String × InjectorModule)) (c : MiddlewareContainer)
    (cf : MiddlewareBuilder → Except Err (MiddlewareBuilder × JSValue)) (e : Err)
    (ret : JSValue)
    (hc : m.inst.configure = some cf)
    (he : cf MiddlewareBuilder.new = .error e) :
    register di ((name, m) :: rest) c = .error e ∧
    register di [(name, ⟨⟨some fun b => .ok (b, ret)⟩, []⟩)] c =
      .ok (c.addConfig MiddlewareBuilder.new.build name) := by
  constructor
  · simp [register, resolveMiddleware, loadConfiguration, hc, he]
  · rfl

/-- Claim C2 witness: a synchronously throwing configure hook rejects
`register` with exactly its error, while a hook returning the foreign value
`.foreign 3` leaves `register` succeeding. -/
theorem register_fatal_error_propagation_witness :
    register di0 [("M", ⟨⟨some throwingConfigure⟩, []⟩)] MiddlewareContainer.empty =
      .error (.userException 2) ∧
    register di0 [("M", ⟨⟨some fun b => .ok (b, JSValue.foreign 3)⟩, []⟩)]
        MiddlewareContainer.empty =
      .ok (MiddlewareContainer.empty.addConfig MiddlewareBuilder.new.build "M") :=
  register_fatal_error_propagation di0 "M" ⟨⟨some throwingConfigure⟩, []⟩ []
    MiddlewareContainer.empty throwingConfigure (.userException 2) (JSValue.foreign 3)
    rfl rfl

/-- Claim C3: `bindHandler` registers the identical final handler whether
`resolve()` returns the handler directly or a promise of it; in the promise
case the value handed to the proxy is the settled handler, never the promise
itself, and when the promise rejects (never settles with a handler) no
registration is performed. -/
theorem bindHandler_sync_async_same_handler (h : Nat) (metatype : Metatype)
    (method : RequestMethod) (path : String) (e : Err) :
    bindHandler ⟨some (.ok (.handler h))⟩ metatype method path =
      .ok [⟨method, path, .handler h⟩] ∧
    bindHandler ⟨some (.ok (.promiseOk (.handler h)))⟩ metatype method path =
      .ok [⟨method, path, .handler h⟩] ∧
    bindHandler ⟨some (.ok (.promiseErr e))⟩ metatype method path = .error e :=
  ⟨rfl, rfl, rfl⟩

/-- Claim C5: when `instance.resolve` is undefined, `bindHandler` fails with
`InvalidMiddlewareException` naming the metatype; the error result carries
no router registration. -/
theorem bindHandler_missing_resolve (inst : NestMiddleware) (metatype : Metatype)
    (method : RequestMethod) (path : String) (h : inst.resolve = none) :
    bindHandler inst metatype method path =
      .error (.invalidMiddlewareException metatype.name) := by
  simp [bindHandler, h]

/-- Claim C5 witness: a `Logger` middleware without `resolve` fails with the
invalid-middleware error naming `Logger`. -/
theorem bindHandler_missing_resolve_witness :
    bindHandler ⟨none⟩ ⟨"Logger"⟩ RequestMethod.all "/users" =
      .error (.invalidMiddlewareException "Logger") :=
  bindHandler_missing_resolve ⟨none⟩ ⟨"Logger"⟩ RequestMethod.all "/users" rfl

/-- Claim C8: `loadConfiguration` on an instance without a configure hook
returns the container unchanged (no builder observed, no config appended)
and never throws. -/
theorem loadConfiguration_no_configure_noop (c : MiddlewareContainer)
    (inst : NestModule) (module : String) (h : inst.configure = none) :
    loadConfiguration c inst module = .ok c := by
  simp [loadConfiguration, h]

/-- Claim C8 witness: the hook-less module leaves the empty container
untouched. -/
theorem loadConfiguration_no_configure_noop_witness :
    loadConfiguration MiddlewareContainer.empty ⟨none⟩ "M0" =
      .ok MiddlewareContainer.empty :=
  loadConfiguration_no_configure_noop MiddlewareContainer.empty ⟨none⟩ "M0" rfl

/-- Claim C9: the exceptions handler and the method-bound router function
are pure constructions preceding the `instance.resolve()` call in
`bindHandler`; a synchronous throw from `resolve()` propagates out of
`bindHandler` unchanged — it is not routed to the just-built exceptions
handler, and the error result carries no router registration. -/
theorem bindHandler_resolve_throws_propagates (e : Err) (metatype : Metatype)
    (method : RequestMethod) (path : String) :
    bindHandler ⟨some (.error e)⟩ metatype method path = .error e := rfl

/-- Claim C10: `bindHandler` distinguishes synchronous from asynchronous
factories solely by `resolve instanceof Promise`: every value that is not a
native promise — including a non-promise thenable — is bound directly as
the handler, never awaited. -/
theorem bindHandler_nonpromise_bound_directly (v : JSValue) (metatype : Metatype)
    (method : RequestMethod) (path : String) (h : instanceofPromise v = false) :
    bindHandler ⟨some (.ok v)⟩ metatype method path = .ok [⟨method, path, v⟩] := by
  simp [bindHandler, bindHandlerWithProxy, h]

/-- Claim C10 witness: a non-promise thenable (whose settlement would be
handler 5) is not an `instanceof Promise` and is bound directly, as the
thenable itself. -/
theorem bindHandler_nonpromise_bound_directly_witness :
    instanceofPromise (JSValue.thenableOk (.handler 5)) = false ∧
    bindHandler ⟨some (.ok (.thenableOk (.handler 5)))⟩ ⟨"Logger"⟩
        RequestMethod.all "/users" =
      .ok [⟨RequestMethod.all, "/users", .thenableOk (.handler 5)⟩] :=
  ⟨rfl, bindHandler_nonpromise_bound_directly (.thenableOk (.handler 5)) ⟨"Logger"⟩
    RequestMethod.all "/users" rfl⟩

/-- A successful `bindHandler` call performed exactly one router
registration, with the method and path it was given. -/
theorem bindHandler_ok_single (inst : NestMiddleware) (metatype : Metatype)
    (method : RequestMethod) (path : String) (regs : List Registration)
    (h : bindHandler inst metatype method path = .ok regs) :
    ∃ mw, regs = [⟨method, path, mw⟩] := by
  cases hr : inst.resolve with
  | none => simp [bindHandler, hr] at h
  | some r =>
    cases r with
    | error e => simp [bindHandler, hr] at h
    | ok v =>
      by_cases hp : instanceofPromise v = false
      · simp [bindHandler, bindHandlerWithProxy, hr, hp] at h
        exact ⟨v, h.symm⟩
      · cases ha : awaitJS v with
        | error e => simp [bindHandler, hr, hp, ha] at h
        | ok mw =>
          simp [bindHandler, bindHandlerWithProxy, hr, hp, ha] at h
          exact ⟨mw, h.symm⟩

/-- Shape of a successful `bindAllMiddleware` run: one registration per
metatype, every one at the given path with the `ALL` verb. -/
theorem bindAllMiddleware_ok_shape (collection : List (String × MiddlewareWrapper))
    (routePath : String) (l : List Metatype) (regs : List Registration)
    (h : bindAllMiddleware collection routePath l = .ok regs) :
    regs.length = l.length ∧
      ∀ r ∈ regs, r.method = RequestMethod.all ∧ r.path = routePath := by
  induction l generalizing regs with
  | nil =>
    simp [bindAllMiddleware] at h
    subst h
    simp
  | cons t rest ih =>
    cases hcol : assocGet collection t.name with
    | none => simp [bindAllMiddleware, hcol] at h
    | some w =>
      cases hb : bindHandler w.inst t RequestMethod.all routePath with
      | error e => simp [bindAllMiddleware, hcol, hb] at h
      | ok regs1 =>
        cases hrest : bindAllMiddleware collection routePath rest with
        | error e => simp [bindAllMiddleware, hcol, hb, hrest] at h
        | ok regs2 =>
          simp [bindAllMiddleware, hcol, hb, hrest] at h
          obtain ⟨mw, rfl⟩ := bindHandler_ok_single w.inst t RequestMethod.all routePath regs1 hb
          obtain ⟨hlen, hall⟩ := ih regs2 hrest
          subst h
          constructor
          · simp [hlen]
          · intro r hr
            rcases List.mem_append.mp hr with h1 | h2
            · obtain rfl := List.mem_singleton.mp h1
              exact ⟨rfl, rfl⟩
            · exact hall r h2

/-- Claim C6: whenever `registerRouteMiddleware` succeeds it made exactly
one router registration per middleware type of the configuration, each for
the generic `ALL` verb at the route path; and a middleware field declared as
a single item behaves identically to the one-element sequence. -/
theorem registerRouteMiddleware_single_registration
    (middlewareContainer : MiddlewareContainer) (routePath : String)
    (config : MiddlewareConfiguration) (module : String) (regs : List Registration)
    (hok : registerRouteMiddleware middlewareContainer routePath config module = .ok regs) :
    regs.length = (concatNormalize config.middleware).length ∧
    (∀ r ∈ regs, r.method = RequestMethod.all ∧ r.path = routePath) ∧
    ∀ (mt : Metatype) (routes : List String),
      registerRouteMiddleware middlewareContainer routePath ⟨.one mt, routes⟩ module =
        registerRouteMiddleware middlewareContainer routePath ⟨.many [mt], routes⟩ module := by
  obtain ⟨h1, h2⟩ := bindAllMiddleware_ok_shape _ routePath _ regs hok
  exact ⟨h1, h2, fun mt routes => rfl⟩

/-- Claim C6 witness: binding the scalar-declared `Logger` configuration for
`/users` in a container holding its wrapper yields exactly one `ALL`
registration at `/users`. -/
theorem registerRouteMiddleware_single_registration_witness :
    ([⟨RequestMethod.all, "/users", JSValue.handler 7⟩] : List Registration).length =
      (concatNormalize cfgLogger.middleware).length ∧
    (∀ r ∈ ([⟨RequestMethod.all, "/users", JSValue.handler 7⟩] : List Registration),
      r.method = RequestMethod.all ∧ r.path = "/users") ∧
    ∀ (mt : Metatype) (routes : List String),
      registerRouteMiddleware containerWithLogger "/users" ⟨.one mt, routes⟩ "M" =
        registerRouteMiddleware containerWithLogger "/users" ⟨.many [mt], routes⟩ "M" :=
  registerRouteMiddleware_single_registration containerWithLogger "/users" cfgLogger "M"
    [⟨RequestMethod.all, "/users", JSValue.handler 7⟩] rfl

/-- When some metatype of the list has no wrapper in the collection, binding
rejects: it always ends in an error, and when every present wrapper binds
successfully that error is exactly the internal `RuntimeException`. -/
theorem bindAllMiddleware_missing_wrapper (collection : List (String × MiddlewareWrapper))
    (routePath : String) (l : List Metatype) (m : Metatype)
    (hmem : m ∈ l) (hmiss : assocGet collection m.name = none) :
    (∃ e, bindAllMiddleware collection routePath l = .error e) ∧
    ((∀ mt ∈ l, ∀ w, assocGet collection mt.name = some w →
        ∃ regs, bindHandler w.inst mt RequestMethod.all routePath = .ok regs) →
      bindAllMiddleware collection routePath l = .error .runtimeException) := by
  induction l with
  | nil => cases hmem
  | cons t rest ih =>
    rcases List.mem_cons.mp hmem with rfl | hm
    · have hval : bindAllMiddleware collection routePath (m :: rest) =
          .error .runtimeException := by
        simp [bindAllMiddleware, hmiss]
      exact ⟨⟨_, hval⟩, fun _ => hval⟩
    · cases hcol : assocGet collection t.name with
      | none =>
        have hval : bindAllMiddleware collection routePath (t :: rest) =
            .error .runtimeException := by
          simp [bindAllMiddleware, hcol]
        exact ⟨⟨_, hval⟩, fun _ => hval⟩
      | some w =>
        obtain ⟨⟨e1, he1⟩, hrt⟩ := ih hm
        constructor
        · cases hb : bindHandler w.inst t RequestMethod.all routePath with
          | error e => exact ⟨e, by simp [bindAllMiddleware, hcol, hb]⟩
          | ok regs => exact ⟨e1, by simp [bindAllMiddleware, hcol, hb, he1]⟩
        · intro hall
          obtain ⟨regs, hb⟩ := hall t (List.mem_cons_self t rest) w hcol
          have hrest : bindAllMiddleware collection routePath rest =
              .error .runtimeException :=
            hrt (fun mt hmt => hall mt (List.mem_cons_of_mem t hmt))
          simp [bindAllMiddleware, hcol, hb, hrest]

/-- Claim C4: a route configuration referencing a middleware type with no
wrapper in the module's registry entry is never silently skipped:
`registerRouteMiddleware` rejects, and — whenever every metatype that does
have a wrapper binds successfully — it rejects with the internal
`RuntimeException`. -/
theorem registerRouteMiddleware_missing_wrapper_rejects
    (middlewareContainer : MiddlewareContainer) (routePath : String)
    (config : MiddlewareConfiguration) (module : String) (m : Metatype)
    (hmem : m ∈ concatNormalize config.middleware)
    (hmiss : assocGet (middlewareContainer.getMiddleware module) m.name = none) :
    (∃ e, registerRouteMiddleware middlewareContainer routePath config module = .error e) ∧
    ((∀ mt ∈ concatNormalize config.middleware, ∀ w,
        assocGet (middlewareContainer.getMiddleware module) mt.name = some w →
        ∃ regs, bindHandler w.inst mt RequestMethod.all routePath = .ok regs) →
      registerRouteMiddleware middlewareContainer routePath config module =
        .error .runtimeException) :=
  bindAllMiddleware_missing_wrapper (middlewareContainer.getMiddleware module)
    routePath (concatNormalize config.middleware) m hmem hmiss

/-- Claim C4 witness: binding the `Logger` configuration in a container
with no wrapper for module `M` rejects with the internal error. -/
theorem registerRouteMiddleware_missing_wrapper_rejects_witness :
    registerRouteMiddleware MiddlewareContainer.empty "/users" cfgLogger "M" =
      .error .runtimeException :=
  (registerRouteMiddleware_missing_wrapper_rejects MiddlewareContainer.empty "/users"
      cfgLogger "M" loggerType (List.mem_cons_self loggerType []) rfl).2
    (fun _ _ _ hw => nomatch hw)

/-- Claim C7: when the proxied target handler throws synchronously or its
returned awaitable rejects, `exceptionsHandler.handle` receives exactly that
one error and nothing escapes the proxy boundary. -/
theorem createProxy_isolates_errors (targetHandler : Nat → InvocationOutcome)
    (req : Nat) (e : Err)
    (h : targetHandler req = .threw e ∨ targetHandler req = .returned (.error e)) :
    (createProxy targetHandler req).handledErrors = [e] ∧
    (createProxy targetHandler req).escaped = none := by
  rcases h with h | h <;> simp [createProxy, h]

/-- Claim C7 witness: a handler throwing `userException 9` on request `0`
has that error handled exactly once and nothing escapes. -/
theorem createProxy_isolates_errors_witness :
    (createProxy (fun _ => .threw (.userException 9)) 0).handledErrors =
      [.userException 9] ∧
    (createProxy (fun _ => .threw (.userException 9)) 0).escaped = none :=
  createProxy_isolates_errors (fun _ => .threw (.userException 9)) 0
    (.userException 9) (Or.inl rfl)

end Nest
